import Mathlib

/-!
Verification of the snake simulation core (`src/main.rs`).

The bevy systems are embedded as pure functions over an explicit `World`
record that aggregates the resources and component data the simulation
mutates: the `GameState` bundle (status, devoured, rendered), the snake's
segment positions (head-first, mirroring `SnakeBody` plus the per-entity
`Position` components), the head's facing, the set of live food positions,
and the `LastTailPosition` resource.  Events (`GrowthEvent`,
`RenderFoodEvent`, `GameOverEvent`) are modelled as explicit return values
threaded from writer to reader inside a tick, matching the program's
system ordering (`snake_movement` → `snake_eating` → `snake_growth`, with
`game_over` applying its despawn commands at the end of the frame, and
`update_game_status` → `food_spawner` → `handle_render_event` on the
slower cadence).
-/

namespace Snake

/-- Constant `GRID_WIDTH: u32 = 35` from the source, used as `i32` in
`snake_movement`. -/
def GRID_WIDTH : Int := 35

/-- Constant `GRID_HEIGHT: u32 = 30` from the source, used as `i32` in
`snake_movement`. -/
def GRID_HEIGHT : Int := 30

/-- Constant `FOOD_WIN_AMOUNT: u32 = 50` from the source. -/
def FOOD_WIN_AMOUNT : Nat := 50

/-- Constant `FALL_BEHIND_LOSS_AMOUNT: u32 = 15` from the source. -/
def FALL_BEHIND_LOSS_AMOUNT : Nat := 15

/-- `struct Position { x: i32, y: i32 }` from the source. -/
structure Position where
  x : Int
  y : Int
deriving DecidableEq, Repr

instance : Inhabited Position := ⟨⟨0, 0⟩⟩

/-- `enum Direction { Left, Up, Right, Down }` from the source. -/
inductive Direction where
  | left
  | up
  | right
  | down
deriving DecidableEq, Repr

/-- `impl Neg for Direction` from the source. -/
def Direction.neg : Direction → Direction
  | .left => .right
  | .right => .left
  | .up => .down
  | .down => .up

/-- `enum GameStatus { InProgress, Won, Lost }` from the source. -/
inductive GameStatus where
  | inProgress
  | won
  | lost
deriving DecidableEq, Repr

/-- The `GameState` bundle from the source: `status: GameStatus`,
`devoured: DevouredFood(u32)`, `rendered: RenderedFood(u32)`.  The `u32`
counters are modelled as `Nat`; `rendered`'s unsigned decrement is the
subject of the backlog-nonnegativity claim. -/
structure GameState where
  status : GameStatus
  devoured : Nat
  rendered : Nat
deriving DecidableEq, Repr

/-- `struct GameOverEvent(GameStatus)` from the source. -/
structure GameOverEvent where
  status : GameStatus
deriving DecidableEq, Repr

/-- The aggregate simulation state: the `GameState` bundle, the snake's
segment positions in `SnakeBody` order (index 0 is the head entity's
position), the head's `SnakeHead.direction`, the positions of all live
`Food` entities (in spawn order), and the `LastTailPosition(Option<Position>)`
resource.  `snake = []` models the state after `game_over` has despawned
every snake part. -/
structure World where
  state : GameState
  snake : List Position
  direction : Direction
  foods : List Position
  lastTail : Option Position
deriving DecidableEq, Repr

/-- The keyboard state sampled by `snake_movement_input`: whether each of
the four arrow keys is currently pressed. -/
structure Keys where
  left : Bool
  down : Bool
  up : Bool
  right : Bool
deriving DecidableEq, Repr

/-- The head-advance arithmetic inlined in `snake_movement` (the `match
&head.direction` block, lines 393-422): clamp-then-step on each axis
independently, using `GRID_WIDTH`/`GRID_HEIGHT` as `i32`. -/
def moveHead (p : Position) (d : Direction) : Position :=
  match d with
  | .left =>
    let x0 := if p.x ≤ 0 then GRID_WIDTH else p.x
    { p with x := x0 - 1 }
  | .right =>
    let x0 := if p.x ≥ GRID_WIDTH - 1 then -1 else p.x
    { p with x := x0 + 1 }
  | .up =>
    let y0 := if p.y ≥ GRID_HEIGHT - 1 then -1 else p.y
    { p with y := y0 + 1 }
  | .down =>
    let y0 := if p.y ≤ 0 then GRID_HEIGHT else p.y
    { p with y := y0 - 1 }

/-- `fn snake_movement` from the source.  With no head (the snake was
despawned) it does nothing.  Otherwise: it snapshots the segment positions
(`body_positions`, which is exactly `w.snake`), tests whether the head's
current (pre-move) position occurs among `body_positions[1..]` and if so
sets the status to `Lost` and sends a `GameOverEvent` carrying that
status, then moves the head by `moveHead`, shifts segment `i` (i ≥ 1) to
`body_positions[i-1]`, and records the pre-move tail position in
`LastTailPosition`.  Returns the mutated world together with the
`GameOverEvent`s written this run. -/
def snake_movement (w : World) : World × List GameOverEvent :=
  match w.snake with
  | [] => (w, [])
  | headPos :: rest =>
    let statusAfter := if headPos ∈ rest then GameStatus.lost else w.state.status
    let events := if headPos ∈ rest then [GameOverEvent.mk GameStatus.lost] else []
    ({ w with
        state := { w.state with status := statusAfter },
        snake := moveHead headPos w.direction :: (headPos :: rest).dropLast,
        lastTail := (headPos :: rest).getLast? },
      events)

/-- `fn snake_eating` from the source: for the (single) head position,
despawn every `Food` entity whose position equals it and send one
`GrowthEvent` per despawned food.  Returns the mutated world and the
number of `GrowthEvent`s written. -/
def snake_eating (w : World) : World × Nat :=
  match w.snake with
  | [] => (w, 0)
  | headPos :: _ =>
    ({ w with foods := w.foods.filter (fun f => !(decide (f = headPos))) },
      (w.foods.filter (fun f => decide (f = headPos))).length)

/-- `fn inc_and_dec` from the source: `eaten.0 += 1; to_eat.0 -= 1` on the
`u32` counters (the decrement is unsigned subtraction). -/
def inc_and_dec (s : GameState) : GameState :=
  { s with devoured := s.devoured + 1, rendered := s.rendered - 1 }

/-- `fn snake_growth` from the source: if at least one `GrowthEvent` is
pending (`growth_reader.iter().next().is_some()`), push one new snake part
at `last_tail_position.0.unwrap()` and run `inc_and_dec`.  The `none`
branch corresponds to the `unwrap()` panicking; it is unreachable inside a
movement tick because `snake_movement` runs first and records `some _`
whenever a head exists. -/
def snake_growth (w : World) (growthEvents : Nat) : World :=
  if growthEvents = 0 then w
  else
    match w.lastTail with
    | some p => { w with snake := w.snake ++ [p], state := inc_and_dec w.state }
    | none => w

/-- `fn game_over` from the source: if a `GameOverEvent` is pending,
despawn every food and snake entity (the end-game text it also spawns is
presentation-only and not modelled). -/
def game_over (w : World) (events : List GameOverEvent) : World :=
  match events with
  | [] => w
  | _ :: _ => { w with snake := [], foods := [] }

/-- One firing of the `FixedTimestep::step(0.10)` system set together with
the per-frame `game_over` system: `snake_movement`, then `snake_eating`
(after movement), then `snake_growth` (after eating), with `game_over`
consuming the `GameOverEvent`s written this frame (its despawn commands
apply at the end of the frame). -/
def movementTick (w : World) : World :=
  let moved := snake_movement w
  let eaten := snake_eating moved.1
  game_over (snake_growth eaten.1 eaten.2) moved.2

/-- `fn update_game_status` from the source: if `devoured ≥
FOOD_WIN_AMOUNT` set `Won`, else if `rendered ≥ FALL_BEHIND_LOSS_AMOUNT`
set `Lost`, else leave the status alone.  It writes no events. -/
def update_game_status (s : GameState) : GameState :=
  if s.devoured ≥ FOOD_WIN_AMOUNT then { s with status := GameStatus.won }
  else if s.rendered ≥ FALL_BEHIND_LOSS_AMOUNT then { s with status := GameStatus.lost }
  else s

/-- `fn food_spawner` from the source: if the status is `InProgress`,
spawn one food entity at the randomly drawn position `r` (no occupancy
check, no despawn of existing food) and send a `RenderFoodEvent`;
otherwise do nothing.  The random draw is a parameter. -/
def food_spawner (w : World) (r : Position) : World × Bool :=
  match w.state.status with
  | .inProgress => ({ w with foods := w.foods ++ [r] }, true)
  | _ => (w, false)

/-- `fn handle_render_event` from the source: if a `RenderFoodEvent` is
pending, increment `rendered` by one. -/
def handle_render_event (w : World) (ev : Bool) : World :=
  if ev then { w with state := { w.state with rendered := w.state.rendered + 1 } } else w

/-- One firing of the `FixedTimestep::step(3.0)` system set:
`update_game_status` strictly before `food_spawner` (the `.before`
ordering in `main`), with `handle_render_event` consuming the
`RenderFoodEvent` written this frame. -/
def statusTick (w : World) (r : Position) : World :=
  let w1 := { w with state := update_game_status w.state }
  let spawned := food_spawner w1 r
  handle_render_event spawned.1 spawned.2

/-- The `GameOverEvent`s written during a status tick.  None of the
systems on the 3-second cadence (`update_game_status`, `food_spawner`) nor
`handle_render_event` has an `EventWriter<GameOverEvent>`; the only writer
of `GameOverEvent` in the whole program is `snake_movement`. -/
def statusTickEvents (_w : World) (_r : Position) : List GameOverEvent := []

/-- `fn snake_movement_input` from the source: resolve the pressed keys in
the order Left, Down, Up, Right (first match wins, defaulting to the
current facing), then assign the resolved direction to the head only if it
is not the negation of the current facing.  With no head present it does
nothing. -/
def snake_movement_input (k : Keys) (w : World) : World :=
  match w.snake with
  | [] => w
  | _ :: _ =>
    let dir : Direction :=
      if k.left then .left
      else if k.down then .down
      else if k.up then .up
      else if k.right then .right
      else w.direction
    if dir ≠ w.direction.neg then { w with direction := dir } else w

/-- The initial world set up by the startup systems: `spawn_snake` places
the head at (3, 3) facing `Up` and one body part at (3, 2);
`setup_game_state` creates the bundle `InProgress`/0/0; `LastTailPosition`
and `SnakeBody` resources start at their defaults.  The startup run of
`food_spawner` is representable as a `statusTick` step from this world. -/
def initWorld : World :=
  { state := ⟨GameStatus.inProgress, 0, 0⟩,
    snake := [⟨3, 3⟩, ⟨3, 2⟩],
    direction := .up,
    foods := [],
    lastTail := none }

/-- A scheduler step: one movement tick, one status tick (with its random
draw), or one input-sampling pass (with the current keyboard state). -/
inductive Action where
  | move
  | status (r : Position)
  | input (k : Keys)
deriving Repr

/-- Apply one scheduler step. -/
def applyAction (w : World) : Action → World
  | .move => movementTick w
  | .status r => statusTick w r
  | .input k => snake_movement_input k w

/-- The states reachable from the initial world by scheduler steps. -/
inductive Reachable : World → Prop
  | init : Reachable initWorld
  | step (a : Action) {w : World} : Reachable w → Reachable (applyAction w a)

/-- Run a list of scheduler steps in order. -/
def runActions (acts : List Action) (w : World) : World :=
  acts.foldl applyAction w

theorem reachable_runActions (acts : List Action) (w : World) (h : Reachable w) :
    Reachable (runActions acts w) := by
  induction acts generalizing w with
  | nil => exact h
  | cons a l ih => exact ih _ (Reachable.step a h)

/-- A position lying on the grid: `0 ≤ x < GRID_WIDTH`, `0 ≤ y < GRID_HEIGHT`. -/
def inBounds (p : Position) : Prop :=
  0 ≤ p.x ∧ p.x < GRID_WIDTH ∧ 0 ≤ p.y ∧ p.y < GRID_HEIGHT

instance (p : Position) : Decidable (inBounds p) := by
  unfold inBounds; infer_instance

/-- Claim C5: head movement wraps each axis independently by the
clamp-then-step rule: for every in-bounds head position, decrementing a
coordinate at 0 lands on bound - 1 and incrementing a coordinate at
bound - 1 lands on 0, for all four directions at both boundary
coordinates; in particular moving left from x = 0 yields
x = GRID_WIDTH - 1 on the same tick. -/
theorem wrap_clamp_then_step (p : Position) (h : inBounds p) :
    (p.x = 0 → (moveHead p .left).x = GRID_WIDTH - 1) ∧
    (p.x = GRID_WIDTH - 1 → (moveHead p .right).x = 0) ∧
    (p.y = GRID_HEIGHT - 1 → (moveHead p .up).y = 0) ∧
    (p.y = 0 → (moveHead p .down).y = GRID_HEIGHT - 1) := by
  obtain ⟨hx0, hxw, hy0, hyh⟩ := h
  refine ⟨?_, ?_, ?_, ?_⟩ <;> intro he <;>
    simp only [moveHead, GRID_WIDTH, GRID_HEIGHT] at * <;>
    split <;> omega

/-- Witness for the wrap theorem: moving left from (0, 5) lands on
x = 34 = GRID_WIDTH - 1. -/
theorem wrap_clamp_then_step_witness :
    (moveHead ⟨0, 5⟩ .left).x = GRID_WIDTH - 1 :=
  (wrap_clamp_then_step ⟨0, 5⟩ (by decide)).1 rfl

/-- The keyboard state in which exactly the key for direction `d` is
pressed. -/
def keysFor : Direction → Keys
  | .left => ⟨true, false, false, false⟩
  | .down => ⟨false, true, false, false⟩
  | .up => ⟨false, false, true, false⟩
  | .right => ⟨false, false, false, true⟩

/-- The keyboard state with no directional key pressed. -/
def noKeys : Keys := ⟨false, false, false, false⟩

/-- Claim C8: the input resolver updates the head's facing only if the
requested direction is not the exact opposite of the current facing, and
leaves the facing unchanged when no directional key is active; given
current facing Up, an input of Down leaves the facing Up, while an input
of Left changes the facing to Left. -/
theorem input_resolver (w : World) (d : Direction) (hsnake : w.snake ≠ []) :
    ((snake_movement_input noKeys w).direction = w.direction) ∧
    (d = w.direction.neg → (snake_movement_input (keysFor d) w).direction = w.direction) ∧
    (d ≠ w.direction.neg → (snake_movement_input (keysFor d) w).direction = d) ∧
    (w.direction = .up → (snake_movement_input (keysFor .down) w).direction = .up) ∧
    (w.direction = .up → (snake_movement_input (keysFor .left) w).direction = .left) := by
  obtain ⟨a, l, h⟩ : ∃ a l, w.snake = a :: l := by
    cases hs : w.snake with
    | nil => exact absurd hs hsnake
    | cons a l => exact ⟨a, l, rfl⟩
  cases d <;> cases hd : w.direction <;>
    simp [snake_movement_input, h, keysFor, noKeys, Direction.neg, hd]

/-- Witness for the input-resolver theorem at the initial world: facing is
Up, a Down key press leaves it Up. -/
theorem input_resolver_witness :
    (snake_movement_input (keysFor .down) initWorld).direction = .up :=
  (input_resolver initWorld .down (by decide)).2.2.2.1 rfl

theorem getElem?_dropLast {α : Type} (l : List α) (i : Nat) (h : i + 1 < l.length) :
    l.dropLast[i]? = l[i]? := by
  rw [List.dropLast_eq_take, List.getElem?_take]
  simp
  omega

/-- Claim C6: on every movement tick, segment i (i ≥ 1) takes the position
segment i-1 held before the tick (follow-the-leader over the pre-move
snapshot), and the tail's pre-move position is recorded as the last tail
position; moreover, from the starting snake (head (3, 3) facing Up, body
(3, 2)) one movement tick with no input puts the head at (3, 4) and the
body segment at (3, 3) with status still InProgress. -/
theorem follow_the_leader (w : World) (i : Nat) (h1 : 1 ≤ i) (h2 : i < w.snake.length) :
    ((snake_movement w).1.snake[i]? = w.snake[i - 1]?) ∧
    ((snake_movement w).1.lastTail = w.snake.getLast?) ∧
    ((movementTick initWorld).snake = [⟨3, 4⟩, ⟨3, 3⟩]) ∧
    ((movementTick initWorld).state.status = GameStatus.inProgress) := by
  obtain ⟨hp, rest, hs⟩ : ∃ hp rest, w.snake = hp :: rest := by
    cases hs : w.snake with
    | nil => rw [hs] at h2; simp at h2
    | cons a l => exact ⟨a, l, rfl⟩
  rw [hs] at h2
  refine ⟨?_, ?_, by decide, by decide⟩
  · obtain ⟨j, rfl⟩ : ∃ j, i = j + 1 := ⟨i - 1, by omega⟩
    rw [hs]
    simp only [snake_movement, hs, List.getElem?_cons_succ, Nat.add_sub_cancel]
    exact getElem?_dropLast (hp :: rest) j h2
  · simp [snake_movement, hs]

/-- Witness for the follow-the-leader theorem: after one tick from the
initial world, segment 1 sits where segment 0 (the head) was. -/
theorem follow_the_leader_witness :
    (snake_movement initWorld).1.snake[1]? = initWorld.snake[0]? :=
  (follow_the_leader initWorld 1 (by decide) (by decide)).1

/-- Amended claim C1: on every movement tick, the self-collision check
tests whether the head's PRE-move position (`prev[0]`) equals any of
`prev[1..]` (not the new position computed from the facing); when it
fires, GameStatus becomes Lost on that tick, a GameOverEvent carrying
Lost is emitted, and the movement itself still completes that tick.
Consequently a head that moves onto a body cell is detected one tick
later, not on the tick of the overlapping move. -/
theorem collision_check_premove (hp : Position) (rest : List Position) (w : World)
    (hsnake : w.snake = hp :: rest) (hcol : hp ∈ rest) :
    ((snake_movement w).1.state.status = GameStatus.lost) ∧
    ((snake_movement w).2 = [GameOverEvent.mk GameStatus.lost]) ∧
    ((snake_movement w).1.snake = moveHead hp w.direction :: (hp :: rest).dropLast) := by
  simp [snake_movement, hsnake, hcol]

/-- Witness for the amended collision theorem: a world whose head already
overlaps a body segment transitions to Lost on that tick while the
movement still completes. -/
theorem collision_check_premove_witness :
    (snake_movement ⟨⟨GameStatus.inProgress, 0, 0⟩,
      [⟨3, 3⟩, ⟨3, 2⟩, ⟨3, 3⟩], .up, [], none⟩).1.state.status = GameStatus.lost :=
  (collision_check_premove ⟨3, 3⟩ [⟨3, 2⟩, ⟨3, 3⟩] _ rfl (by decide)).1

theorem snake_movement_input_state (k : Keys) (w : World) :
    (snake_movement_input k w).state = w.state := by
  unfold snake_movement_input
  cases hs : w.snake with
  | nil => rfl
  | cons a l =>
    dsimp only
    repeat' split
    all_goals rfl

theorem snake_movement_foods (w : World) : (snake_movement w).1.foods = w.foods := by
  cases hs : w.snake <;> simp [snake_movement, hs]

theorem snake_movement_devoured (w : World) :
    (snake_movement w).1.state.devoured = w.state.devoured := by
  cases hs : w.snake <;> simp [snake_movement, hs]

theorem snake_movement_rendered (w : World) :
    (snake_movement w).1.state.rendered = w.state.rendered := by
  cases hs : w.snake <;> simp [snake_movement, hs]

theorem snake_movement_status (w : World) :
    (snake_movement w).1.state.status = w.state.status ∨
    (snake_movement w).1.state.status = GameStatus.lost := by
  cases hs : w.snake with
  | nil => left; simp [snake_movement, hs]
  | cons hp rest =>
    by_cases hc : hp ∈ rest
    · right; simp [snake_movement, hs, hc]
    · left; simp [snake_movement, hs, hc]

theorem snake_eating_state (w : World) : (snake_eating w).1.state = w.state := by
  cases hs : w.snake <;> simp [snake_eating, hs]

theorem snake_eating_snake (w : World) : (snake_eating w).1.snake = w.snake := by
  cases hs : w.snake <;> simp [snake_eating, hs]

theorem snake_eating_lastTail (w : World) : (snake_eating w).1.lastTail = w.lastTail := by
  cases hs : w.snake <;> simp [snake_eating, hs]

theorem snake_growth_status (w : World) (n : Nat) :
    (snake_growth w n).state.status = w.state.status := by
  unfold snake_growth
  split
  · rfl
  · split <;> simp [inc_and_dec]

theorem game_over_state (w : World) (evs : List GameOverEvent) :
    (game_over w evs).state = w.state := by
  cases evs <;> rfl

theorem movementTick_status (w : World) :
    (movementTick w).state.status = w.state.status ∨
    (movementTick w).state.status = GameStatus.lost := by
  have h1 : (movementTick w).state.status = (snake_movement w).1.state.status := by
    simp only [movementTick]
    rw [game_over_state, snake_growth_status]
    rw [show (snake_eating (snake_movement w).1).1.state.status
          = (snake_movement w).1.state.status from
        congrArg GameState.status (snake_eating_state (snake_movement w).1)]
  rw [h1]
  exact snake_movement_status w

theorem statusTick_status (w : World) (r : Position) :
    (statusTick w r).state.status = (update_game_status w.state).status := by
  simp only [statusTick, food_spawner, handle_render_event]
  cases hst : (update_game_status w.state).status <;> simp [hst]

theorem update_game_status_cases (s : GameState) :
    (update_game_status s).status = s.status ∨
    (update_game_status s).status = GameStatus.won ∨
    (update_game_status s).status = GameStatus.lost := by
  unfold update_game_status
  split
  · right; left; rfl
  · split
    · right; right; rfl
    · left; rfl

/-- Amended claim C2: once GameStatus leaves InProgress it never returns
to InProgress (no scheduler step maps a Won or Lost state back to
InProgress).  Full monotonicity fails: the status-tick rule maps a Lost
state with eaten ≥ 50 to Won, and position/growth mutations continue
after a Lost transition reached through the backlog rule (see the
counterexample). -/
theorem status_never_reenters_inProgress (w : World) (a : Action)
    (h : w.state.status ≠ GameStatus.inProgress) :
    (applyAction w a).state.status ≠ GameStatus.inProgress := by
  cases a with
  | move =>
    rcases movementTick_status w with hc | hc <;> rw [applyAction, hc]
    · exact h
    · simp
  | status r =>
    rw [applyAction, statusTick_status]
    rcases update_game_status_cases w.state with hc | hc | hc <;> rw [hc] <;> simp_all
  | input k =>
    rw [applyAction, snake_movement_input_state]
    exact h

/-- Witness for the amended status theorem: from a Lost state, a movement
tick leaves the status away from InProgress. -/
theorem status_never_reenters_inProgress_witness :
    (applyAction ⟨⟨GameStatus.lost, 0, 0⟩, [⟨3, 3⟩, ⟨3, 2⟩], .up, [], none⟩
      Action.move).state.status ≠ GameStatus.inProgress :=
  status_never_reenters_inProgress _ Action.move (by decide)

/-- Characterization of a movement tick on which the snake has a head, the
pre-move self-collision check does not fire, and at least one live food
sits on the head's new position: the food at that cell is despawned, one
segment is appended at the recorded pre-move tail position, `devoured`
gains one and `rendered` loses one. -/
theorem movementTick_eat (hp : Position) (rest : List Position) (w : World)
    (hsnake : w.snake = hp :: rest) (hnocol : hp ∉ rest)
    (hk : 1 ≤ (w.foods.filter (fun f => decide (f = moveHead hp w.direction))).length) :
    ((movementTick w).state.devoured = w.state.devoured + 1) ∧
    ((movementTick w).state.rendered = w.state.rendered - 1) ∧
    ((movementTick w).snake = (moveHead hp w.direction :: (hp :: rest).dropLast)
      ++ [(hp :: rest).getLast (List.cons_ne_nil hp rest)]) ∧
    ((movementTick w).foods
      = w.foods.filter (fun f => !(decide (f = moveHead hp w.direction)))) ∧
    ((movementTick w).lastTail = (hp :: rest).getLast?) := by
  have hne : ¬((w.foods.filter (fun f => decide (f = moveHead hp w.direction))).length = 0) := by
    omega
  have hlast : (hp :: rest).getLast? = some ((hp :: rest).getLast (List.cons_ne_nil hp rest)) :=
    List.getLast?_eq_getLast _ _
  refine ⟨?_, ?_, ?_, ?_, ?_⟩ <;>
    simp [movementTick, snake_movement, hsnake, hnocol, snake_eating,
      snake_growth, hne, hlast, inc_and_dec, game_over]

/-- Claim C4: on a movement tick where the head's new position carries a
live food (a consumption event) and the pre-move collision check does not
fire, the three growth effects happen together within that tick: `eaten`
(devoured) increases by exactly 1, `spawnedBacklog` (rendered) decreases
by exactly 1, the segment count increases by exactly 1, and the new tail
segment sits at the recorded last tail position (the tail's pre-move
position). -/
theorem growth_conservation (hp : Position) (rest : List Position) (w : World)
    (hsnake : w.snake = hp :: rest) (hnocol : hp ∉ rest)
    (hfood : moveHead hp w.direction ∈ w.foods)
    (hrend : 1 ≤ w.state.rendered) :
    ((movementTick w).state.devoured = w.state.devoured + 1) ∧
    ((movementTick w).state.rendered + 1 = w.state.rendered) ∧
    ((movementTick w).snake.length = w.snake.length + 1) ∧
    ((movementTick w).snake.getLast? = (snake_movement w).1.lastTail) ∧
    ((snake_movement w).1.lastTail = w.snake.getLast?) := by
  have hk : 1 ≤ (w.foods.filter (fun f => decide (f = moveHead hp w.direction))).length := by
    have hmem : moveHead hp w.direction
        ∈ w.foods.filter (fun f => decide (f = moveHead hp w.direction)) :=
      List.mem_filter.mpr ⟨hfood, by simp⟩
    have := List.length_pos.mpr (List.ne_nil_of_mem hmem)
    omega
  obtain ⟨hdev, hren, hsn, hfoods, hlt⟩ := movementTick_eat hp rest w hsnake hnocol hk
  refine ⟨hdev, by omega, ?_, ?_, by simp [snake_movement, hsnake]⟩
  · rw [hsn, hsnake]
    simp [List.length_dropLast]
  · rw [hsn]
    rw [List.getLast?_concat]
    rw [show (snake_movement w).1.lastTail = (hp :: rest).getLast? from
      by simp [snake_movement, hsnake]]
    rw [List.getLast?_eq_getLast _ (List.cons_ne_nil hp rest)]

/-- Witness for the growth-conservation theorem: a length-2 snake with a
food directly ahead gains exactly one segment and one devoured count. -/
theorem growth_conservation_witness :
    (movementTick ⟨⟨GameStatus.inProgress, 3, 2⟩, [⟨3, 3⟩, ⟨3, 2⟩], .up,
      [⟨3, 4⟩], some ⟨9, 9⟩⟩).state.devoured = 3 + 1 :=
  (growth_conservation ⟨3, 3⟩ [⟨3, 2⟩] _ rfl (by decide) (by decide) (by decide)).1

/-- Claim C10: if on a single movement tick the head's new position
coincides with k ≥ 2 live food items, all of them are despawned that tick,
but the snake gains exactly one segment, `eaten` increases by exactly 1
and `spawnedBacklog` decreases by exactly 1 (not by k). -/
theorem multi_food_single_growth (hp : Position) (rest : List Position) (w : World)
    (hsnake : w.snake = hp :: rest) (hnocol : hp ∉ rest)
    (hk2 : 2 ≤ (w.foods.filter (fun f => decide (f = moveHead hp w.direction))).length)
    (hrend : 1 ≤ w.state.rendered) :
    (moveHead hp w.direction ∉ (movementTick w).foods) ∧
    ((movementTick w).snake.length = w.snake.length + 1) ∧
    ((movementTick w).state.devoured = w.state.devoured + 1) ∧
    ((movementTick w).state.rendered + 1 = w.state.rendered) := by
  obtain ⟨hdev, hren, hsn, hfoods, hlt⟩ :=
    movementTick_eat hp rest w hsnake hnocol (by omega)
  refine ⟨?_, ?_, hdev, by omega⟩
  · rw [hfoods]
    simp [List.mem_filter]
  · rw [hsn, hsnake]
    simp [List.length_dropLast]

/-- Witness for the multi-food theorem: two foods on the same cell ahead
of the head are both despawned while the snake grows by one. -/
theorem multi_food_single_growth_witness :
    (moveHead ⟨3, 3⟩ .up) ∉ (movementTick ⟨⟨GameStatus.inProgress, 0, 2⟩,
      [⟨3, 3⟩, ⟨3, 2⟩], .up, [⟨3, 4⟩, ⟨3, 4⟩], none⟩).foods :=
  (multi_food_single_growth ⟨3, 3⟩ [⟨3, 2⟩] _ rfl (by decide) (by decide) (by decide)).1

/-- Claim C3 (code behavior at the failing input): a status tick whose
evaluation transitions an InProgress state into Won (eaten ≥
FOOD_WIN_AMOUNT) emits no GameOverEvent at all — the status-cadence
systems have no GameOverEvent writer; the only writer in the program is
the self-collision branch of `snake_movement`. -/
theorem threshold_win_no_event (w : World) (r : Position)
    (_h1 : w.state.status = GameStatus.inProgress)
    (h2 : FOOD_WIN_AMOUNT ≤ w.state.devoured) :
    ((statusTick w r).state.status = GameStatus.won) ∧
    (statusTickEvents w r = []) := by
  refine ⟨?_, rfl⟩
  rw [statusTick_status]
  simp [update_game_status, h2]

/-- Witness for the threshold-win theorem: fifty devoured foods flip the
status to Won on a status tick with no event emitted. -/
theorem threshold_win_no_event_witness :
    (statusTick ⟨⟨GameStatus.inProgress, 50, 0⟩, [⟨3, 3⟩, ⟨3, 2⟩], .up, [], none⟩
      ⟨1, 1⟩).state.status = GameStatus.won :=
  (threshold_win_no_event _ ⟨1, 1⟩ rfl (by decide)).1

/-- Amended claim C7: each firing of the spawner produces at most one new
food item (exactly one while the evaluated status is InProgress, none
otherwise), but previously spawned uneaten items persist, so several food
items can be live simultaneously; food existence is a count, not a
boolean. -/
theorem spawner_one_per_tick (w : World) (r : Position) :
    ((update_game_status w.state).status = GameStatus.inProgress →
      (statusTick w r).foods = w.foods ++ [r]) ∧
    ((update_game_status w.state).status ≠ GameStatus.inProgress →
      (statusTick w r).foods = w.foods) := by
  constructor <;> intro h
  · simp [statusTick, food_spawner, handle_render_event, h]
  · cases hst : (update_game_status w.state).status with
    | inProgress => exact absurd hst h
    | won => simp [statusTick, food_spawner, handle_render_event, hst]
    | lost => simp [statusTick, food_spawner, handle_render_event, hst]

/-- Witness for the spawner theorem: a spawn from the initial world
appends exactly the drawn cell to the live-food list. -/
theorem spawner_one_per_tick_witness :
    (statusTick initWorld ⟨5, 5⟩).foods = initWorld.foods ++ [⟨5, 5⟩] :=
  (spawner_one_per_tick initWorld ⟨5, 5⟩).1 (by decide)

theorem snake_movement_input_foods (k : Keys) (w : World) :
    (snake_movement_input k w).foods = w.foods := by
  unfold snake_movement_input
  cases hs : w.snake with
  | nil => rfl
  | cons a l =>
    dsimp only
    repeat' split
    all_goals rfl

theorem update_game_status_rendered (s : GameState) :
    (update_game_status s).rendered = s.rendered := by
  unfold update_game_status
  split
  · rfl
  · split <;> rfl

theorem length_filter_partition {α : Type} (l : List α) (p : α → Bool) :
    (l.filter p).length + (l.filter (fun a => !(p a))).length = l.length := by
  induction l with
  | nil => rfl
  | cons a t ih => cases hpa : p a <;> simp [List.filter_cons, hpa] <;> omega

theorem movementTick_inv (w : World) (h : w.foods.length ≤ w.state.rendered) :
    (movementTick w).foods.length ≤ (movementTick w).state.rendered := by
  cases hs : w.snake with
  | nil =>
    have hid : movementTick w = w := by
      simp [movementTick, snake_movement, snake_eating, snake_growth, game_over, hs]
    rw [hid]; exact h
  | cons hp rest =>
    by_cases hcol : hp ∈ rest
    · have hempty : (movementTick w).foods = [] := by
        simp [movementTick, snake_movement, hs, hcol, game_over]
      simp [hempty]
    · have hmove : snake_movement w =
          ({ w with
              snake := moveHead hp w.direction :: (hp :: rest).dropLast,
              lastTail := (hp :: rest).getLast? },
            []) := by
        simp [snake_movement, hs, hcol]
      have hlast : (hp :: rest).getLast?
          = some ((hp :: rest).getLast (List.cons_ne_nil hp rest)) :=
        List.getLast?_eq_getLast _ _
      simp only [movementTick]
      rw [hmove]
      simp only [snake_eating, game_over]
      by_cases hk : (w.foods.filter
          (fun f => decide (f = moveHead hp w.direction))).length = 0
      · simp only [snake_growth, hk, if_pos]
        calc (w.foods.filter
              (fun f => !(decide (f = moveHead hp w.direction)))).length
            ≤ w.foods.length := List.length_filter_le _ _
          _ ≤ w.state.rendered := h
      · have hpart := length_filter_partition w.foods
          (fun f => decide (f = moveHead hp w.direction))
        simp only [snake_growth, if_neg hk, hlast, inc_and_dec]
        omega

theorem statusTick_inv (w : World) (r : Position)
    (h : w.foods.length ≤ w.state.rendered) :
    (statusTick w r).foods.length ≤ (statusTick w r).state.rendered := by
  have hrend := update_game_status_rendered w.state
  cases hst : (update_game_status w.state).status with
  | inProgress =>
    simp [statusTick, food_spawner, handle_render_event, hst, hrend]
    omega
  | won =>
    simp [statusTick, food_spawner, handle_render_event, hst, hrend]
    omega
  | lost =>
    simp [statusTick, food_spawner, handle_render_event, hst, hrend]
    omega

theorem inv_step (w : World) (a : Action) (h : w.foods.length ≤ w.state.rendered) :
    (applyAction w a).foods.length ≤ (applyAction w a).state.rendered := by
  cases a with
  | move => exact movementTick_inv w h
  | status r => exact statusTick_inv w r h
  | input k =>
    rw [applyAction, snake_movement_input_foods, snake_movement_input_state]
    exact h

theorem foods_le_rendered (w : World) (hw : Reachable w) :
    w.foods.length ≤ w.state.rendered := by
  induction hw with
  | init => exact Nat.le_refl 0
  | step a _ ih => exact inv_step _ a ih

/-- Claim C9: in every reachable state the `rendered` backlog counter
dominates the number of live food items (so it is never driven negative),
and whenever the growth engine's decrement fires on a movement tick (at
least one GrowthEvent was written), `rendered` is at least 1 at the moment
`inc_and_dec` runs, so the unsigned subtraction cannot underflow. -/
theorem backlog_never_negative (w : World) (hw : Reachable w) :
    (w.foods.length ≤ w.state.rendered) ∧
    ((snake_eating (snake_movement w).1).2 ≠ 0 →
      1 ≤ (snake_eating (snake_movement w).1).1.state.rendered) := by
  have hInv := foods_le_rendered w hw
  refine ⟨hInv, fun hne => ?_⟩
  rw [show (snake_eating (snake_movement w).1).1.state
        = (snake_movement w).1.state from snake_eating_state _,
    snake_movement_rendered]
  cases hs : (snake_movement w).1.snake with
  | nil => simp [snake_eating, hs] at hne
  | cons a l =>
    simp only [snake_eating, hs] at hne
    rw [snake_movement_foods] at hne
    have hle : (w.foods.filter (fun f => decide (f = a))).length ≤ w.foods.length :=
      List.length_filter_le _ _
    omega

/-- Witness for the backlog theorem at the (reachable) initial world. -/
theorem backlog_never_negative_witness :
    initWorld.foods.length ≤ initWorld.state.rendered :=
  (backlog_never_negative initWorld Reachable.init).1

/-- Actions reaching a length-4 snake bent into a U, about to move its
head onto a body cell: two eat-grow cycles going up, then turns Left and
Down, then a Right key press. -/
def c1Actions : List Action :=
  [Action.status ⟨3, 4⟩, Action.move,
   Action.status ⟨3, 5⟩, Action.move,
   Action.input (keysFor .left), Action.move,
   Action.input (keysFor .down), Action.move,
   Action.input (keysFor .right)]

/-- The reachable world produced by `c1Actions`: snake
[(2,4), (2,5), (3,5), (3,4)] facing Right, so the next head position
(3,4) equals a body segment's pre-move position. -/
def c1World : World := runActions c1Actions initWorld

/-- Counterexample to claim C1: in the reachable world `c1World` the
head's NEW position (applying the facing to prev[0]) equals a member of
prev[1..], yet the movement tick leaves GameStatus at InProgress — the
code compares the head's PRE-move position against prev[1..], so the
status does not become Lost on that exact tick as the claim requires. -/
theorem collision_on_new_head_cex :
    Reachable c1World ∧
    c1World.snake = [⟨2, 4⟩, ⟨2, 5⟩, ⟨3, 5⟩, ⟨3, 4⟩] ∧
    c1World.direction = Direction.right ∧
    (moveHead ⟨2, 4⟩ Direction.right ∈ [(⟨2, 5⟩ : Position), ⟨3, 5⟩, ⟨3, 4⟩]) ∧
    (movementTick c1World).state.status = GameStatus.inProgress := by
  refine ⟨reachable_runActions c1Actions initWorld Reachable.init, ?_, ?_, ?_, ?_⟩ <;> decide

/-- Cell i of the L-shaped path walked by the long counterexample trace:
up the column x = 3 from (3, 3) to (3, 26 + 3), then right along the row
y = 29.  `lCell i` is the head's position after i movement ticks. -/
def lCell (i : Nat) : Position :=
  if i ≤ 26 then ⟨3, 3 + (i : Int)⟩ else ⟨3 + ((i : Int) - 26), 29⟩

/-- One eat-grow cycle of the long trace: (turn Right before move 27,)
spawn a food on the head's next cell, then run one movement tick. -/
def cycleFor (m : Nat) : List Action :=
  (if m = 27 then [Action.input (keysFor .right)] else [])
    ++ [Action.status (lCell m), Action.move]

/-- The first n eat-grow cycles of the long trace, in order. -/
def cyclesUpTo : Nat → List Action
  | 0 => []
  | m + 1 => cyclesUpTo m ++ cycleFor (m + 1)

/-- The long trace: 49 eat-grow cycles (devoured reaches 49, the snake
grows to length 51), then 15 status-tick spawns with nothing eaten
(rendered climbs to 15; the first spare food sits on the head's next
cell), then one more status tick whose evaluation sees rendered = 15 and
sets Lost. -/
def c2Actions : List Action :=
  cyclesUpTo 49 ++ [Action.status ⟨27, 29⟩]
    ++ List.replicate 14 (Action.status ⟨0, 0⟩) ++ [Action.status ⟨0, 0⟩]

/-- The reachable Lost state produced by `c2Actions`: status Lost with
devoured = 49 and one food sitting on the head's next cell. -/
def c2Lost : World := runActions c2Actions initWorld

set_option maxRecDepth 40000 in
/-- Counterexample to claim C2: `c2Lost` is reachable and Lost, yet a
subsequent movement tick still mutates the snake (it eats, growing the
segment list and the devoured counter — growth after the terminal
transition), and the following status tick flips the status from Lost to
Won because devoured reached FOOD_WIN_AMOUNT.  GameStatus is therefore
not monotonic. -/
theorem status_not_monotonic_cex :
    Reachable c2Lost ∧
    c2Lost.state.status = GameStatus.lost ∧
    c2Lost.state.devoured = 49 ∧
    c2Lost.snake.length = 51 ∧
    (applyAction c2Lost Action.move).state.status = GameStatus.lost ∧
    (applyAction c2Lost Action.move).state.devoured = 50 ∧
    (applyAction c2Lost Action.move).snake.length = 52 ∧
    (applyAction (applyAction c2Lost Action.move)
      (Action.status ⟨0, 0⟩)).state.status = GameStatus.won := by
  refine ⟨reachable_runActions c2Actions initWorld Reachable.init,
    ?_, ?_, ?_, ?_, ?_, ?_, ?_⟩ <;> decide

/-- Two spawner firings with nothing eaten in between. -/
def c7World : World := runActions [Action.status ⟨5, 5⟩, Action.status ⟨6, 6⟩] initWorld

/-- Counterexample to claim C7: after two spawner firings with no
consumption, the reachable world `c7World` holds two live food items at
once, refuting "at most one food item is live". -/
theorem single_live_food_cex :
    Reachable c7World ∧ c7World.foods = [⟨5, 5⟩, ⟨6, 6⟩] :=
  ⟨reachable_runActions _ _ Reachable.init, by decide⟩

end Snake
